import Mathlib

/-!
Verification development for the client-side aggregation pipeline of the
physique57 insight-hub dashboard.

The embedding covers:
* a model of the JavaScript `Date` value as a civil day count (days since the
  Unix epoch), with the month-overflow normalisation `new Date(y, mIdx, d)`
  performs (`jsMkDate`), and the civil-calendar conversions behind
  `getFullYear` / `getMonth`;
* the two `parseDate` implementations
  (`SalesInteractiveCharts.tsx` and `ProductPerformanceTable`);
* the chart aggregations `monthlyData`, `categoryData`, `productData` of
  `SalesInteractiveCharts.tsx`;
* the cohort metrics of `ConversionMetricsSection.tsx` / `NewCsvDataTable.tsx`
  (location comparison rows, funnel data, overview cards);
* the `ProductPerformanceTable` pipeline (`processedData`, `groupedData`,
  `monthYears`, `totals`, the category-subtotal and grand-total cells).

Currency amounts and CSV numbers are modelled as exact rationals (`ℚ`);
JavaScript numbers are IEEE doubles, but every claim under study is about the
exact arithmetic the formulas denote.  JavaScript's `x || 0` on a number is the
identity in this model (the only falsy numbers are `0` and `NaN`, and `NaN`
does not arise over `ℚ`); on a string it maps `""` to the default.
-/

/-! ## Civil-calendar model of the JavaScript `Date` -/

/-- Day count (days since 1970-01-01) of a civil date, for `m ∈ [1,12]`.
Standard civil-from-days algorithm over floored integer division. -/
def daysFromCivil (y m d : Int) : Int :=
  let y := if m ≤ 2 then y - 1 else y
  let era := y.fdiv 400
  let yoe := y - era * 400
  let mp := (m + 9).emod 12
  let doy := (153 * mp + 2).fdiv 5 + d - 1
  let doe := yoe * 365 + yoe.fdiv 4 - yoe.fdiv 100 + doy
  era * 146097 + doe - 719468

/-- Inverse of `daysFromCivil`: the (year, month 1–12, day 1–31) of a day
count. -/
def civilFromDays (z : Int) : Int × Int × Int :=
  let z := z + 719468
  let era := z.fdiv 146097
  let doe := z - era * 146097
  let yoe := (doe - doe.fdiv 1460 + doe.fdiv 36524 - doe.fdiv 146096).fdiv 365
  let y := yoe + era * 400
  let doy := doe - (365 * yoe + yoe.fdiv 4 - yoe.fdiv 100)
  let mp := (5 * doy + 2).fdiv 153
  let d := doy - (153 * mp + 2).fdiv 5 + 1
  let m := mp + (if mp < 10 then 3 else -9)
  (y + (if m ≤ 2 then 1 else 0), m, d)

/-- Model of the JavaScript constructor `new Date(year, monthIndex, day)`
(at midnight), as a day count.  Both the month index and the day may lie
outside their nominal ranges; JavaScript normalises the overflow, which the
floored division on months and the day offset reproduce. -/
def jsMkDate (year monthIndex day : Int) : Int :=
  let ym := year * 12 + monthIndex
  daysFromCivil (ym.fdiv 12) (ym.emod 12 + 1) 1 + (day - 1)

/-- Model of `Date.prototype.getFullYear`. -/
def dateYear (t : Int) : Int := (civilFromDays t).1

/-- Model of `Date.prototype.getMonth` (0-based month index). -/
def dateMonthIdx (t : Int) : Int := (civilFromDays t).2.1 - 1

/-! ## The two `parseDate` implementations -/

/-- Numeric value of a digit string, as `parseInt` computes it on an
all-digits input. -/
def digitsVal (l : List Char) : Nat :=
  l.foldl (fun a c => a * 10 + (c.toNat - 48)) 0

/-- Shared prefix of the two slash-delimited date regexes: matches
`^(\d{1,2})\/(\d{1,2})\/(\d{4})` greedily and returns the (day, month, year)
capture values together with the unconsumed rest of the string.  Both regexes
in the source share this prefix; they differ only in what may follow the
year. -/
def matchDMY (l : List Char) : Option (Nat × Nat × Nat × List Char) :=
  let p1 := l.span Char.isDigit
  if p1.1.length = 0 ∨ 2 < p1.1.length then none else
  match p1.2 with
  | '/' :: r1 =>
    let p2 := r1.span Char.isDigit
    if p2.1.length = 0 ∨ 2 < p2.1.length then none else
    match p2.2 with
    | '/' :: r2 =>
      let p3 := r2.span Char.isDigit
      if p3.1.length = 4 then some (digitsVal p1.1, digitsVal p2.1, digitsVal p3.1, p3.2)
      else none
    | _ => none
  | _ => none

/-- Matches the `\s+\d{2}:\d{2}:\d{2}$` tail of the second regex of
`SalesInteractiveCharts.parseDate` (the time-of-day values are never used by
the source; only the match outcome matters). -/
def matchTimeTail (l : List Char) : Bool :=
  let p := l.span Char.isWhitespace
  if p.1.length = 0 then false else
  match p.2 with
  | h1 :: h2 :: ':' :: m1 :: m2 :: ':' :: s1 :: s2 :: [] =>
    h1.isDigit && h2.isDigit && m1.isDigit && m2.isDigit && s1.isDigit && s2.isDigit
  | _ => false

/-- Embedding of `parseDate` from `SalesInteractiveCharts.tsx`.  It tries
`DD/MM/YYYY`, then `DD/MM/YYYY HH:MM:SS` (both day-first, via
`new Date(year, month-1, day)`), then hands the string to the locale-generic
`new Date(dateStr)` fallback, abstracted here as the parameter `fb`
(`isNaN(date.getTime())` failure of the fallback is `none`).  The guard
`if !dateStr` maps the empty string to `null`.  The function is total: it
returns a date or `none`, never a fault. -/
def parseDateCharts (fb : String → Option Int) (s : String) : Option Int :=
  if s = "" then none else
  match matchDMY s.toList with
  | some (d, m, y, rest) =>
    if rest = [] then some (jsMkDate (y : Int) ((m : Int) - 1) (d : Int))
    else if matchTimeTail rest then some (jsMkDate (y : Int) ((m : Int) - 1) (d : Int))
    else fb s
  | none => fb s

/-- Embedding of `parseDate` from the `ProductPerformanceTable` component:
only the bare `DD/MM/YYYY` regex is attempted, with no time-of-day pattern
and no fallback parse — anything else yields `null`. -/
def parseDatePpt (s : String) : Option Int :=
  if s = "" then none else
  match matchDMY s.toList with
  | some (d, m, y, rest) =>
    if rest = [] then some (jsMkDate (y : Int) ((m : Int) - 1) (d : Int))
    else none
  | none => none

/-- Models the ECMAScript locale-generic fallback `new Date(dateStr)` on the
ISO `YYYY-MM-DD` format only; every other input (whose acceptance is
implementation-defined in ECMAScript) is treated as unparseable.  Concrete
witnesses below only exercise inputs on which all conforming engines agree. -/
def isoFallback (s : String) : Option Int :=
  match s.toList with
  | y1 :: y2 :: y3 :: y4 :: '-' :: m1 :: m2 :: '-' :: d1 :: d2 :: [] =>
    if (y1.isDigit && y2.isDigit && y3.isDigit && y4.isDigit &&
        m1.isDigit && m2.isDigit && d1.isDigit && d2.isDigit) then
      some (jsMkDate (digitsVal [y1, y2, y3, y4] : Int)
        ((digitsVal [m1, m2] : Int) - 1) (digitsVal [d1, d2] : Int))
    else none
  | _ => none

/-! ## The transaction record -/

/-- The fields of a `SalesData` record that the aggregation pipeline reads
(the full interface carries 21 columns; the remaining ones are never consulted
by the components under study). -/
structure SalesData where
  memberId : String
  paymentDate : String
  paymentValue : ℚ
  paymentVAT : ℚ
  cleanedProduct : String
  cleanedCategory : String

/-- JavaScript `s || dflt` on strings: the empty string is the only falsy
string. -/
def jsOrElse (s dflt : String) : String := if s = "" then dflt else s

/-! ## `SalesInteractiveCharts`: monthly aggregation -/

/-- The `monthNames` array of `SalesInteractiveCharts.tsx`. -/
def monthNames : List String :=
  ["Jan", "Feb", "Mar", "Apr", "May", "Jun", "Jul", "Aug", "Sep", "Oct", "Nov", "Dec"]

/-- The month-bucket key `` `${monthNames[date.getMonth()]} ${date.getFullYear()}` ``.
`getMonth` always lies in `0..11`, so the list lookup cannot miss. -/
def monthKey (t : Int) : String :=
  (monthNames.getD (dateMonthIdx t).toNat "") ++ " " ++ toString (dateYear t)

/-- One accumulator entry of the `months` record in `monthlyData`; the
`members` field models the JavaScript `Set` as its insertion-ordered list of
distinct elements. -/
structure MonthBucket where
  month : String
  revenue : ℚ
  transactions : Nat
  members : List String
  vat : ℚ

/-- JavaScript `Set.prototype.add`: appends the element unless present. -/
def setAdd (s : List String) (x : String) : List String :=
  if x ∈ s then s else s ++ [x]

/-- The per-record update of a month bucket: `revenue += paymentValue`,
`transactions += 1`, `members.add(memberId)` guarded by `if (item.memberId)`,
`vat += paymentVAT`. -/
def bucketAdd (b : MonthBucket) (item : SalesData) : MonthBucket :=
  { b with
    revenue := b.revenue + item.paymentValue
    transactions := b.transactions + 1
    members := if item.memberId = "" then b.members else setAdd b.members item.memberId
    vat := b.vat + item.paymentVAT }

/-- A fresh bucket, as `monthlyData` creates it on first sight of a key. -/
def emptyBucket (key : String) : MonthBucket :=
  { month := key, revenue := 0, transactions := 0, members := [], vat := 0 }

/-- Update of the string-keyed `months` record, modelled as an
insertion-ordered association list: a JavaScript object has at most one entry
per key, updates leave the entry in place, and new keys are appended. -/
def bucketInsert : List MonthBucket → String → SalesData → List MonthBucket
  | [], key, item => [bucketAdd (emptyBucket key) item]
  | b :: rest, key, item =>
    if b.month = key then bucketAdd b item :: rest
    else b :: bucketInsert rest key item

/-- One `data.forEach` step of `monthlyData`: records whose date fails to
parse are skipped (the source's extra `!isNaN(date.getTime())` check is
subsumed by the `Option`). -/
def monthStep (fb : String → Option Int) (acc : List MonthBucket) (item : SalesData) :
    List MonthBucket :=
  match parseDateCharts fb item.paymentDate with
  | none => acc
  | some t => bucketInsert acc (monthKey t) item

/-- The populated `months` record of `monthlyData`, in insertion order
(`Object.values`). -/
def monthGroups (fb : String → Option Int) (data : List SalesData) : List MonthBucket :=
  data.foldl (monthStep fb) []

/-- The mapped shape of one element of `monthlyData`'s `result`. -/
structure MonthlyDataPoint where
  month : String
  revenue : ℚ
  transactions : Nat
  members : Nat
  vat : ℚ
  atv : ℚ
deriving DecidableEq

/-- The `.map` body of `monthlyData`: `members.size`, and
`atv = transactions > 0 ? revenue / transactions : 0`. -/
def toPoint (b : MonthBucket) : MonthlyDataPoint :=
  { month := b.month
    revenue := b.revenue
    transactions := b.transactions
    members := b.members.length
    vat := b.vat
    atv := if 0 < b.transactions then b.revenue / (b.transactions : ℚ) else 0 }

/-- Splits a character list on spaces, as `String.prototype.split(' ')`
does. -/
def splitOnSpace : List Char → List (List Char)
  | [] => [[]]
  | c :: rest =>
    if c = ' ' then [] :: splitOnSpace rest
    else
      match splitOnSpace rest with
      | [] => [[c]]
      | w :: ws => (c :: w) :: ws

/-- JavaScript `Array.prototype.indexOf` (−1 when absent). -/
def jsIndexOf (l : List String) (x : String) : Int :=
  match l.findIdx? (fun y => y = x) with
  | some i => (i : Int)
  | none => -1

/-- The sort key of `monthlyData`'s comparator: split the `"Mon YYYY"` label
on the space, then `new Date(parseInt(year), monthNames.indexOf(mon))`; the
comparator subtracts the resulting `getTime()` values, so sorting ascending by
this day count reproduces it. -/
def monthSortKey (s : String) : Int :=
  let parts := splitOnSpace s.toList
  let mon := String.mk (parts.getD 0 [])
  let yr := parts.getD 1 []
  jsMkDate (digitsVal yr : Int) (jsIndexOf monthNames mon) 1

/-- `monthlyData` before the time-range slice: group, map, and sort
chronologically.  `Array.prototype.sort` is stable, as is `insertionSort`
under this reflexive-total comparator. -/
def monthlyDataAll (fb : String → Option Int) (data : List SalesData) :
    List MonthlyDataPoint :=
  List.insertionSort (fun a b => monthSortKey a.month ≤ monthSortKey b.month)
    ((monthGroups fb data).map toPoint)

/-- JavaScript `arr.slice(-n)`: the suffix of length at most `n`. -/
def jsSliceLast (n : Nat) (l : List MonthlyDataPoint) : List MonthlyDataPoint :=
  l.drop (l.length - n)

/-- The full `monthlyData` memo of `SalesInteractiveCharts.tsx`, including the
time-range branch (`3months` / `6months` / `year`); any other `timeRange`
value returns the unsliced result.  The `!data || data.length === 0` early
return yields `[]`, which the pipeline below also produces on `[]`. -/
def monthlyData (fb : String → Option Int) (data : List SalesData) (timeRange : String) :
    List MonthlyDataPoint :=
  let result := monthlyDataAll fb data
  if timeRange = "3months" then jsSliceLast 3 result
  else if timeRange = "6months" then jsSliceLast 6 result
  else if timeRange = "year" then jsSliceLast 12 result
  else result

/-! ## `SalesInteractiveCharts`: category and product aggregation -/

/-- Shape of `CategoryDataPoint` and `ProductDataPoint` (the two interfaces in
the source are field-for-field identical). -/
structure CategoryDataPoint where
  name : String
  value : ℚ
  count : Nat

/-- Update of the string-keyed `categories` / `products` record: a fresh key
appends `{ name, value: 0, count: 0 }` and then `value += paymentValue`,
`count += 1` runs in either case. -/
def catInsert : List CategoryDataPoint → String → ℚ → List CategoryDataPoint
  | [], key, v => [⟨key, 0 + v, 0 + 1⟩]
  | p :: rest, key, v =>
    if p.name = key then ⟨p.name, p.value + v, p.count + 1⟩ :: rest
    else p :: catInsert rest key v

/-- The populated `categories` record of `categoryData`, in insertion (= first
appearance) order, keyed by `item.cleanedCategory || 'Uncategorized'`. -/
def categoryGroups (data : List SalesData) : List CategoryDataPoint :=
  data.foldl
    (fun acc item => catInsert acc (jsOrElse item.cleanedCategory "Uncategorized")
      item.paymentValue) []

/-- The `categoryData` memo: group then sort by `value` descending
(comparator `b.value - a.value`; stable). -/
def categoryData (data : List SalesData) : List CategoryDataPoint :=
  List.insertionSort (fun a b => b.value ≤ a.value) (categoryGroups data)

/-- The populated `products` record of `productData`, keyed by
`item.cleanedProduct || 'Uncategorized'`. -/
def productGroups (data : List SalesData) : List CategoryDataPoint :=
  data.foldl
    (fun acc item => catInsert acc (jsOrElse item.cleanedProduct "Uncategorized")
      item.paymentValue) []

/-- The `productData` memo: group, sort by `value` descending, and truncate
with `.slice(0, 10)`. -/
def productData (data : List SalesData) : List CategoryDataPoint :=
  (List.insertionSort (fun a b => b.value ≤ a.value) (productGroups data)).take 10

/-- Total of the per-group transaction counts of a chart aggregation. -/
def sumCounts (l : List CategoryDataPoint) : Nat := (l.map (·.count)).sum

/-- Transaction count attributed to one key by a chart aggregation. -/
def catCount (l : List CategoryDataPoint) (key : String) : Nat :=
  ((l.filter (fun p => p.name = key)).map (·.count)).sum

/-! ## Cohort data (`useNewCsvData`) and conversion metrics -/

/-- One location's monthly cohort series (`NewClientData`), the six parallel
month-indexed sequences. -/
structure NewClientData where
  location : String
  months : List String
  newMembers : List ℚ
  retained : List ℚ
  converted : List ℚ
  ltv : List ℚ
  conversionSpan : List ℚ

/-- JavaScript `arr.reduce((a, b) => a + b, 0)`. -/
def jsSumQ (l : List ℚ) : ℚ := l.foldl (fun a b => a + b) 0

theorem jsSumQ_eq_sum (l : List ℚ) : jsSumQ l = l.sum := by
  have h : ∀ (l : List ℚ) (a : ℚ), l.foldl (fun a b => a + b) a = a + l.sum := by
    intro l
    induction l with
    | nil => intro a; simp
    | cons x xs ih => intro a; simp [List.foldl_cons, ih, add_assoc]
  simpa using h l 0

/-- The display renaming applied to location labels
(`.replace('Kwality House, Kemps Corner', 'Kwality House')` etc.); modelled on
whole labels, which is all the data contains. -/
def renameLoc (s : String) : String :=
  if s = "Kwality House, Kemps Corner" then "Kwality House"
  else if s = "Supreme HQ, Bandra" then "Supreme HQ"
  else s

/-- One row of `LocationConversionComparison.locationComparison`. -/
structure LocationComparisonRow where
  location : String
  newMembers : ℚ
  retained : ℚ
  converted : ℚ
  retentionRate : ℚ
  conversionRate : ℚ
  avgLtv : ℚ
  avgConversionSpan : ℚ
  efficiency : ℚ

/-- The `.map` body of `locationComparison` in
`ConversionMetricsSection.tsx`: totals of the six series, then the guarded
ratios, including
`efficiency = totalNewMembers > 0 ?
  ((totalConverted / totalNewMembers) * (totalLtv / totalNewMembers)) / 1000 : 0`. -/
def locationRow (loc : NewClientData) : LocationComparisonRow :=
  let totalNewMembers := jsSumQ loc.newMembers
  let totalRetained := jsSumQ loc.retained
  let totalConverted := jsSumQ loc.converted
  let totalLtv := jsSumQ loc.ltv
  let totalConversionSpan := jsSumQ loc.conversionSpan
  { location := renameLoc loc.location
    newMembers := totalNewMembers
    retained := totalRetained
    converted := totalConverted
    retentionRate := if 0 < totalNewMembers then totalRetained / totalNewMembers * 100 else 0
    conversionRate := if 0 < totalNewMembers then totalConverted / totalNewMembers * 100 else 0
    avgLtv := if 0 < totalNewMembers then totalLtv / totalNewMembers else 0
    avgConversionSpan :=
      if 0 < totalNewMembers then totalConversionSpan / totalNewMembers else 0
    efficiency :=
      if 0 < totalNewMembers then
        totalConverted / totalNewMembers * (totalLtv / totalNewMembers) / 1000
      else 0 }

/-- The full `locationComparison` memo: map then sort by `conversionRate`
descending. -/
def locationComparison (data : List NewClientData) : List LocationComparisonRow :=
  List.insertionSort (fun a b => b.conversionRate ≤ a.conversionRate)
    (data.map locationRow)

/-- The result record of `ConversionFunnelViz.funnelData`. -/
structure FunnelData where
  newMembers : ℚ
  retained : ℚ
  converted : ℚ
  retentionRate : ℚ
  conversionRate : ℚ
  conversionFromRetained : ℚ

/-- `ConversionFunnelViz.funnelData`: totals across every location, then the
three guarded percentages. -/
def funnelData (data : List NewClientData) : FunnelData :=
  let newMembers := jsSumQ (data.map (fun loc => jsSumQ loc.newMembers))
  let retained := jsSumQ (data.map (fun loc => jsSumQ loc.retained))
  let converted := jsSumQ (data.map (fun loc => jsSumQ loc.converted))
  { newMembers := newMembers
    retained := retained
    converted := converted
    retentionRate := if 0 < newMembers then retained / newMembers * 100 else 0
    conversionRate := if 0 < newMembers then converted / newMembers * 100 else 0
    conversionFromRetained := if 0 < retained then converted / retained * 100 else 0 }

/-- The derived metrics of `OverviewCard` in `NewCsvDataTable.tsx`. -/
structure OverviewCardMetrics where
  totalNewMembers : ℚ
  totalRetained : ℚ
  totalConverted : ℚ
  totalLtv : ℚ
  totalConversionSpan : ℚ
  overallRetentionRate : ℚ
  overallConversionRate : ℚ
  avgLtvPerMember : ℚ
  avgConversionSpan : ℚ

/-- `OverviewCard`'s computation: the five series totals and the four
zero-guarded ratios. -/
def overviewCard (loc : NewClientData) : OverviewCardMetrics :=
  let totalNewMembers := jsSumQ loc.newMembers
  let totalRetained := jsSumQ loc.retained
  let totalConverted := jsSumQ loc.converted
  let totalLtv := jsSumQ loc.ltv
  let totalConversionSpan := jsSumQ loc.conversionSpan
  { totalNewMembers := totalNewMembers
    totalRetained := totalRetained
    totalConverted := totalConverted
    totalLtv := totalLtv
    totalConversionSpan := totalConversionSpan
    overallRetentionRate :=
      if 0 < totalNewMembers then totalRetained / totalNewMembers * 100 else 0
    overallConversionRate :=
      if 0 < totalNewMembers then totalConverted / totalNewMembers * 100 else 0
    avgLtvPerMember := if 0 < totalNewMembers then totalLtv / totalNewMembers else 0
    avgConversionSpan :=
      if 0 < totalNewMembers then totalConversionSpan / totalNewMembers else 0 }

/-! ## `ProductPerformanceTable` (product performance pipeline) -/

/-- JavaScript `new Set(arr)` for strings: the insertion-ordered list of
distinct elements. -/
def jsSetOf (l : List String) : List String := l.foldl setAdd []

/-- The fixed `monthlyData` month grid of `ProductPerformanceTable`, unrolled
from its two loops: Jun 2025 down to Jan 2025, then Dec 2024 down to
Jan 2024, as (year, month) pairs. -/
def fixedMonths : List (Int × Int) :=
  [(2025, 6), (2025, 5), (2025, 4), (2025, 3), (2025, 2), (2025, 1),
   (2024, 12), (2024, 11), (2024, 10), (2024, 9), (2024, 8), (2024, 7),
   (2024, 6), (2024, 5), (2024, 4), (2024, 3), (2024, 2), (2024, 1)]

/-- Two-digit year as `toLocaleDateString('en-IN', { year: '2-digit' })`
renders it. -/
def twoDigitYear (y : Int) : String :=
  let r := (y.emod 100).toNat
  (if r < 10 then "0" else "") ++ toString r

/-- The `"Mon YY"` label produced by
`new Date(year, month - 1).toLocaleDateString('en-IN', { month: 'short',
year: '2-digit' })` for an in-range month. -/
def monthLabel (y m : Int) : String :=
  monthNames.getD (m - 1).toNat "" ++ " " ++ twoDigitYear y

/-- The month-membership test of `processedData`'s per-month filter:
`itemDate && itemDate.getFullYear() === year && itemDate.getMonth() + 1 ===
month`. -/
def inMonth (y m : Int) (it : SalesData) : Bool :=
  match parseDatePpt it.paymentDate with
  | some t => dateYear t == y && dateMonthIdx t + 1 == m
  | none => false

/-- One row of `processedData`; the string-keyed `monthlyValues` fields are
recovered from `items` by the accessor functions below. -/
structure ProdRow where
  name : String
  category : String
  totalRevenue : ℚ
  totalTransactions : Nat
  uniqueMembers : Nat
  totalUnits : Nat
  items : List SalesData

/-- `Math.round`: round half toward positive infinity. -/
def jsRound (q : ℚ) : Int := ⌊q + 1 / 2⌋

/-- The `monthItems` of a product row for one grid month. -/
def rowMonthItems (row : ProdRow) (y m : Int) : List SalesData :=
  row.items.filter (inMonth y m)

/-- Per-month `grossRevenue` of a product row. -/
def monthGross (row : ProdRow) (y m : Int) : ℚ :=
  jsSumQ ((rowMonthItems row y m).map (·.paymentValue))

/-- Per-month `vat` of a product row. -/
def monthVat (row : ProdRow) (y m : Int) : ℚ :=
  jsSumQ ((rowMonthItems row y m).map (·.paymentVAT))

/-- Per-month `netRevenue = grossRevenue - vat`. -/
def monthNet (row : ProdRow) (y m : Int) : ℚ := monthGross row y m - monthVat row y m

/-- Per-month `transactions = monthItems.length`. -/
def monthTransactions (row : ProdRow) (y m : Int) : Nat := (rowMonthItems row y m).length

/-- Per-month `uniqueMembers`: size of the `Set` of member ids. -/
def monthUniqueMembers (row : ProdRow) (y m : Int) : Nat :=
  (jsSetOf ((rowMonthItems row y m).map (·.memberId))).length

/-- Per-month `units = monthItems.length` (one unit per record). -/
def monthUnits (row : ProdRow) (y m : Int) : Nat := (rowMonthItems row y m).length

/-- Per-month `atv = transactions > 0 ? Math.round(grossRevenue /
transactions) : 0`. -/
def monthAtv (row : ProdRow) (y m : Int) : ℚ :=
  if 0 < monthTransactions row y m then
    (jsRound (monthGross row y m / (monthTransactions row y m : ℚ)) : ℚ)
  else 0

/-- Per-month `auv = units > 0 ? Math.round(grossRevenue / units) : 0`. -/
def monthAuv (row : ProdRow) (y m : Int) : ℚ :=
  if 0 < monthUnits row y m then
    (jsRound (monthGross row y m / (monthUnits row y m : ℚ)) : ℚ)
  else 0

/-- Per-month `asv = uniqueMembers > 0 ? Math.round(grossRevenue /
uniqueMembers) : 0`. -/
def monthAsv (row : ProdRow) (y m : Int) : ℚ :=
  if 0 < monthUniqueMembers row y m then
    (jsRound (monthGross row y m / (monthUniqueMembers row y m : ℚ)) : ℚ)
  else 0

/-- Per-month `upt`: the numeric value `units / transactions` behind the
`toFixed(1)` presentation (`'0.0'`, i.e. `0`, on zero transactions). -/
def monthUpt (row : ProdRow) (y m : Int) : ℚ :=
  if 0 < monthTransactions row y m then
    (monthUnits row y m : ℚ) / (monthTransactions row y m : ℚ)
  else 0

/-- Update of a string-keyed record of arrays
(`acc[key].push(item)`, fresh keys appended): the grouping step shared by
`productGroups` of `processedData` and the category regrouping of
`groupedData`. -/
def groupInsert {α : Type} : List (String × List α) → String → α → List (String × List α)
  | [], key, x => [(key, [x])]
  | (k, xs) :: rest, key, x =>
    if k = key then (k, xs ++ [x]) :: rest
    else (k, xs) :: groupInsert rest key x

/-- The `productGroups` record of `processedData`, keyed by
`item.cleanedProduct || 'Unknown'`, in first-appearance order
(`Object.entries`). -/
def pptProductGroups (data : List SalesData) : List (String × List SalesData) :=
  data.foldl
    (fun acc it => groupInsert acc (jsOrElse it.cleanedProduct "Unknown") it) []

/-- The per-product row built by `processedData`'s `.map` body:
`category = items[0]?.cleanedCategory || 'Unknown'`, whole-period totals, and
the raw items (the string-keyed monthly values are the accessors above). -/
def mkProdRow (key : String) (items : List SalesData) : ProdRow :=
  { name := key
    category := jsOrElse (match items with | [] => "" | it :: _ => it.cleanedCategory) "Unknown"
    totalRevenue := jsSumQ (items.map (·.paymentValue))
    totalTransactions := items.length
    uniqueMembers := (jsSetOf (items.map (·.memberId))).length
    totalUnits := items.length
    items := items }

/-- `processedData`: group by product, build rows, sort by `totalRevenue`
descending (comparator `b.totalRevenue - a.totalRevenue`; stable). -/
def processedData (data : List SalesData) : List ProdRow :=
  List.insertionSort (fun a b => b.totalRevenue ≤ a.totalRevenue)
    ((pptProductGroups data).map (fun g => mkProdRow g.1 g.2))

/-- `groupedData`: the processed rows regrouped by
`item.category || 'Unknown'`, in first-appearance order. -/
def groupedData (data : List SalesData) : List (String × List ProdRow) :=
  (processedData data).foldl
    (fun acc row => groupInsert acc (jsOrElse row.category "Unknown") row) []

/-- The sort key behind `monthYears`' comparator: split `"Mon YY"` on the
space, `new Date(parseInt('20' + year), monthNames.indexOf(mon))`; the
comparator is `dateB - dateA`, so sorting descending by this day count
reproduces it. -/
def monthYearKey (s : String) : Int :=
  let parts := splitOnSpace s.toList
  let mon := String.mk (parts.getD 0 [])
  let yr := parts.getD 1 []
  jsMkDate (digitsVal ('2' :: '0' :: yr) : Int) (jsIndexOf monthNames mon) 1

/-- `monthYears`: the distinct `"Mon YY"` labels of the parseable payment
dates, in the `Set`'s first-appearance order, then sorted newest-first. -/
def monthYears (data : List SalesData) : List String :=
  let labels := data.filterMap (fun it => (parseDatePpt it.paymentDate).map
    (fun t => monthLabel (dateYear t) (dateMonthIdx t + 1)))
  List.insertionSort (fun a b => monthYearKey b ≤ monthYearKey a) (jsSetOf labels)

/-- The eight metric tabs of the product performance table
(the `TabsTrigger` values). -/
inductive PerfTab where
  | grossRevenue
  | netRevenue
  | transactions
  | uniqueMembers
  | units
  | atv
  | auv
  | asv
deriving DecidableEq

/-- The lookup `item[`${month}_${metric}`] || 0` on a processed row: the
monthly-value keys exist exactly for the 18 grid months' labels, and a missing
key reads as `undefined`, which `|| 0` turns into `0`. -/
def rowMonthVal (row : ProdRow) (label : String) (tab : PerfTab) : ℚ :=
  match fixedMonths.find? (fun ym => monthLabel ym.1 ym.2 == label) with
  | none => 0
  | some (y, m) =>
    match tab with
    | .grossRevenue => monthGross row y m
    | .netRevenue => monthNet row y m
    | .transactions => (monthTransactions row y m : ℚ)
    | .uniqueMembers => (monthUniqueMembers row y m : ℚ)
    | .units => (monthUnits row y m : ℚ)
    | .atv => monthAtv row y m
    | .auv => monthAuv row y m
    | .asv => monthAsv row y m

/-- The `totals` memo read back through `totals[`${month}_${activeTab}`] || 0`:
the object accumulates only the six summable metrics over all processed rows;
a ratio key (`atv`/`auv`/`asv`) is absent, so the guarded read yields `0`. -/
def totalsVal (data : List SalesData) (label : String) (tab : PerfTab) : ℚ :=
  match tab with
  | .atv | .auv | .asv => 0
  | _ => jsSumQ ((processedData data).map (fun row => rowMonthVal row label tab))

/-- A rendered table cell: a currency-formatted number, a plain formatted
number, or literal text. -/
inductive Cell where
  | currency (q : ℚ)
  | number (q : ℚ)
  | text (s : String)
deriving DecidableEq

/-- The `GRAND TOTALS` footer cell for one month column: the six summable
tabs render the accumulated total; the three ratio tabs render the dash
placeholder. -/
def footerCell (data : List SalesData) (label : String) (tab : PerfTab) : Cell :=
  match tab with
  | .grossRevenue => .currency (totalsVal data label .grossRevenue)
  | .netRevenue => .currency (totalsVal data label .netRevenue)
  | .transactions => .number (totalsVal data label .transactions)
  | .uniqueMembers => .number (totalsVal data label .uniqueMembers)
  | .units => .number (totalsVal data label .units)
  | .atv | .auv | .asv => .text "-"

/-- The `categoryTotal` reduction of the category header row:
`items.reduce((sum, item) => sum + (item[`${month}_${activeTab}`] || 0), 0)`
over the category's product rows — for every tab, ratios included. -/
def categoryTotal (rows : List ProdRow) (label : String) (tab : PerfTab) : ℚ :=
  jsSumQ (rows.map (fun row => rowMonthVal row label tab))

/-- The category subtotal cell: revenue-like tabs and the three ratio tabs
go through `formatCurrency(categoryTotal)`, the count tabs through
`formatNumber` (the `upt` branch of the source is unreachable — no such tab
exists). -/
def categorySubtotalCell (rows : List ProdRow) (label : String) (tab : PerfTab) : Cell :=
  match tab with
  | .grossRevenue | .netRevenue | .atv | .auv | .asv =>
    .currency (categoryTotal rows label tab)
  | .transactions | .uniqueMembers | .units =>
    .number (categoryTotal rows label tab)

/-! ## Helper lemmas -/

theorem rateInRange (a b : ℚ) (h0 : 0 ≤ a) (hab : a ≤ b) :
    0 ≤ (if 0 < b then a / b * 100 else 0) ∧ (if 0 < b then a / b * 100 else 0) ≤ 100 := by
  by_cases hb : 0 < b
  · rw [if_pos hb]
    constructor
    · have := div_nonneg h0 hb.le
      positivity
    · have h1 : a / b ≤ 1 := (div_le_one hb).mpr hab
      calc a / b * 100 ≤ 1 * 100 := by
            exact mul_le_mul_of_nonneg_right h1 (by norm_num)
        _ = 100 := by norm_num
  · rw [if_neg hb]
    norm_num

/-! ## C1: the efficiency score of the location comparison -/

/-- C1 (counterexample): for the cohort with 100 new members, 25 converted and
a 50000 LTV total, the computed efficiency is `(25/100 × 500) / 1000 = 0.125`,
not `(25 × 500) / 1000 = 12.5`: the code multiplies the conversion *fraction*,
not the percentage conversion rate, by the average LTV. -/
theorem C1_counterexample :
    (locationRow ⟨"L", ["m"], [100], [60], [25], [50000], [0]⟩).efficiency ≠
      (locationRow ⟨"L", ["m"], [100], [60], [25], [50000], [0]⟩).conversionRate *
        (locationRow ⟨"L", ["m"], [100], [60], [25], [50000], [0]⟩).avgLtv / 1000 := by
  norm_num [locationRow, jsSumQ]

/-- C1 (amended): for every location cohort, the efficiency score equals
(conversion rate × average LTV) / 100000 where the conversion rate is the
percentage — equivalently, (conversion fraction × average LTV) / 1000 — and it
is 0 when the new-members total is 0 (all three factors vanish then, so the
equation holds unconditionally). -/
theorem C1_efficiency_formula (loc : NewClientData) :
    (locationRow loc).efficiency =
      (locationRow loc).conversionRate * (locationRow loc).avgLtv / 100000 := by
  simp only [locationRow]
  by_cases h : 0 < jsSumQ loc.newMembers
  · rw [if_pos h, if_pos h, if_pos h]
    have hne : jsSumQ loc.newMembers ≠ 0 := ne_of_gt h
    field_simp
    ring
  · rw [if_neg h, if_neg h, if_neg h]
    norm_num

/-! ## C3: divide-by-zero cases yield 0 -/

/-- C3: every guarded ratio metric is exactly 0 when its divisor is 0 — the
chart ATV, the product table's monthly ATV/AUV/ASV/UPT, and the cohort
retention rate, conversion rate, average LTV, average conversion span and
efficiency score.  All metric computations in the embedding are total
functions into `ℚ`: no `NaN`, no exception, no undefined value can arise. -/
theorem C3_div_by_zero_is_zero (b : MonthBucket) (row : ProdRow) (y m : Int)
    (loc : NewClientData) :
    (b.transactions = 0 → (toPoint b).atv = 0) ∧
    (monthTransactions row y m = 0 → monthAtv row y m = 0 ∧ monthUpt row y m = 0) ∧
    (monthUnits row y m = 0 → monthAuv row y m = 0) ∧
    (monthUniqueMembers row y m = 0 → monthAsv row y m = 0) ∧
    (jsSumQ loc.newMembers = 0 →
      (overviewCard loc).overallRetentionRate = 0 ∧
      (overviewCard loc).overallConversionRate = 0 ∧
      (overviewCard loc).avgLtvPerMember = 0 ∧
      (overviewCard loc).avgConversionSpan = 0 ∧
      (locationRow loc).retentionRate = 0 ∧
      (locationRow loc).conversionRate = 0 ∧
      (locationRow loc).avgLtv = 0 ∧
      (locationRow loc).avgConversionSpan = 0 ∧
      (locationRow loc).efficiency = 0) := by
  refine ⟨?_, ?_, ?_, ?_, ?_⟩
  · intro h; simp [toPoint, h]
  · intro h; constructor
    · simp [monthAtv, h]
    · simp [monthUpt, h]
  · intro h; simp [monthAuv, h]
  · intro h; simp [monthAsv, h]
  · intro h
    simp [overviewCard, locationRow, h]

/-- C3 (witness): the empty bucket, the empty product row, and the empty
cohort evaluate every guarded metric to 0. -/
theorem C3_witness :
    (toPoint (emptyBucket "Jan 2020")).atv = 0 ∧
    monthAtv (mkProdRow "P" []) 2025 1 = 0 ∧
    monthUpt (mkProdRow "P" []) 2025 1 = 0 ∧
    monthAuv (mkProdRow "P" []) 2025 1 = 0 ∧
    monthAsv (mkProdRow "P" []) 2025 1 = 0 ∧
    (overviewCard ⟨"L", [], [], [], [], [], []⟩).overallRetentionRate = 0 ∧
    (locationRow ⟨"L", [], [], [], [], [], []⟩).efficiency = 0 := by
  have h := C3_div_by_zero_is_zero (emptyBucket "Jan 2020") (mkProdRow "P" []) 2025 1
    ⟨"L", [], [], [], [], [], []⟩
  exact ⟨h.1 rfl, (h.2.1 rfl).1, (h.2.1 rfl).2, h.2.2.1 rfl, h.2.2.2.1 rfl,
    (h.2.2.2.2 rfl).1, (h.2.2.2.2 rfl).2.2.2.2.2.2.2.2⟩

/-! ## C4: range of the retention and conversion rates -/

/-- C4 (counterexample): with the non-negative cohort
`newMembers = [1]`, `retained = [2]`, the computed retention rate is 200,
outside `[0, 100]` — the formula only stays within the interval when
retained ≤ new members, which the claim does not assume. -/
theorem C4_counterexample :
    (overviewCard ⟨"L", ["m"], [1], [2], [0], [0], [0]⟩).overallRetentionRate = 200 ∧
    ¬ (overviewCard ⟨"L", ["m"], [1], [2], [0], [0], [0]⟩).overallRetentionRate ≤ 100 := by
  norm_num [overviewCard, jsSumQ]

/-- C4 (amended): when additionally the retained and converted totals are
bounded by the new-members total (with everything non-negative), the retention
and conversion rates of the overview card and of the funnel lie in `[0, 100]`,
and both are exactly 0 when the new-members total is 0. -/
theorem C4_rates_in_range (loc : NewClientData) (data : List NewClientData)
    (hr0 : 0 ≤ jsSumQ loc.retained) (hc0 : 0 ≤ jsSumQ loc.converted)
    (hrn : jsSumQ loc.retained ≤ jsSumQ loc.newMembers)
    (hcn : jsSumQ loc.converted ≤ jsSumQ loc.newMembers)
    (fr0 : 0 ≤ jsSumQ (data.map (fun l => jsSumQ l.retained)))
    (fc0 : 0 ≤ jsSumQ (data.map (fun l => jsSumQ l.converted)))
    (frn : jsSumQ (data.map (fun l => jsSumQ l.retained)) ≤
      jsSumQ (data.map (fun l => jsSumQ l.newMembers)))
    (fcn : jsSumQ (data.map (fun l => jsSumQ l.converted)) ≤
      jsSumQ (data.map (fun l => jsSumQ l.newMembers))) :
    (0 ≤ (overviewCard loc).overallRetentionRate ∧
      (overviewCard loc).overallRetentionRate ≤ 100) ∧
    (0 ≤ (overviewCard loc).overallConversionRate ∧
      (overviewCard loc).overallConversionRate ≤ 100) ∧
    (0 ≤ (funnelData data).retentionRate ∧ (funnelData data).retentionRate ≤ 100) ∧
    (0 ≤ (funnelData data).conversionRate ∧ (funnelData data).conversionRate ≤ 100) ∧
    (jsSumQ loc.newMembers = 0 →
      (overviewCard loc).overallRetentionRate = 0 ∧
      (overviewCard loc).overallConversionRate = 0) := by
  refine ⟨?_, ?_, ?_, ?_, ?_⟩
  · simpa [overviewCard] using rateInRange _ _ hr0 hrn
  · simpa [overviewCard] using rateInRange _ _ hc0 hcn
  · simpa [funnelData] using rateInRange _ _ fr0 frn
  · simpa [funnelData] using rateInRange _ _ fc0 fcn
  · intro h; simp [overviewCard, h]

/-- C4 (witness): the example cohort with 100 new members, 60 retained and 25
converted has both rates inside `[0, 100]`. -/
theorem C4_witness :
    (0 ≤ (overviewCard ⟨"L", ["m"], [100], [60], [25], [50000], [0]⟩).overallRetentionRate ∧
      (overviewCard ⟨"L", ["m"], [100], [60], [25], [50000], [0]⟩).overallRetentionRate ≤ 100) ∧
    (0 ≤ (overviewCard ⟨"L", ["m"], [100], [60], [25], [50000], [0]⟩).overallConversionRate ∧
      (overviewCard ⟨"L", ["m"], [100], [60], [25], [50000], [0]⟩).overallConversionRate ≤ 100) ∧
    (0 ≤ (funnelData []).retentionRate ∧ (funnelData []).retentionRate ≤ 100) ∧
    (0 ≤ (funnelData []).conversionRate ∧ (funnelData []).conversionRate ≤ 100) ∧
    (jsSumQ (⟨"L", ["m"], [100], [60], [25], [50000], [0]⟩ : NewClientData).newMembers = 0 →
      (overviewCard ⟨"L", ["m"], [100], [60], [25], [50000], [0]⟩).overallRetentionRate = 0 ∧
      (overviewCard ⟨"L", ["m"], [100], [60], [25], [50000], [0]⟩).overallConversionRate = 0) := by
  exact C4_rates_in_range ⟨"L", ["m"], [100], [60], [25], [50000], [0]⟩ []
    (by norm_num [jsSumQ]) (by norm_num [jsSumQ]) (by norm_num [jsSumQ])
    (by norm_num [jsSumQ]) (by norm_num [jsSumQ]) (by norm_num [jsSumQ])
    (by norm_num [jsSumQ]) (by norm_num [jsSumQ])

/-! ## C8: the two `parseDate` implementations -/

/-- C8 (counterexample): the claim asserts every `parseDate` implementation
attempts `DD/MM/YYYY`, then `DD/MM/YYYY HH:MM:SS`, then a fallback parse.  On
`"05/03/2025 10:11:12"` the `SalesInteractiveCharts` implementation succeeds
via the second pattern, but the `ProductPerformanceTable` implementation
returns the `null` sentinel: it has no time-of-day pattern and no fallback. -/
theorem C8_counterexample :
    parseDateCharts isoFallback "05/03/2025 10:11:12" = some (jsMkDate 2025 2 5) ∧
    parseDatePpt "05/03/2025 10:11:12" = none := by
  constructor
  · decide
  · decide

/-- C8 (amended): the `SalesInteractiveCharts` parser attempts `DD/MM/YYYY`,
then `DD/MM/YYYY HH:MM:SS`, then the fallback, interpreting the slash forms
day-first, and returns a date or the `null` sentinel (it is a total function);
the `ProductPerformanceTable` parser supports only the bare `DD/MM/YYYY`
pattern, so wherever it succeeds the charts parser agrees, but it returns
`null` on timestamped and ISO inputs.  Day-first: `"05/03/2025"` parses to
5 March 2025, not 3 May. -/
theorem C8_parse_order (fb : String → Option Int) (s : String) (t : Int)
    (h : parseDatePpt s = some t) :
    parseDateCharts fb s = some t ∧
    parseDateCharts fb "05/03/2025" = some (jsMkDate 2025 2 5) ∧
    civilFromDays (jsMkDate 2025 2 5) = (2025, 3, 5) ∧
    parseDatePpt "2025-03-05" = none := by
  have main : ∀ (s : String) (t : Int), parseDatePpt s = some t → parseDateCharts fb s = some t := by
    intro s t h
    by_cases hs : s = ""
    · simp [parseDatePpt, hs] at h
    · simp only [parseDatePpt, if_neg hs] at h
      simp only [parseDateCharts, if_neg hs]
      cases hm : matchDMY s.toList with
      | none => rw [hm] at h; exact absurd h (by simp)
      | some q =>
        obtain ⟨d, m, y, rest⟩ := q
        rw [hm] at h
        dsimp only at h ⊢
        by_cases hr : rest = []
        · simp only [if_pos hr] at h ⊢
          exact h
        · simp [if_neg hr] at h
  exact ⟨main s t h, main "05/03/2025" _ (by decide), by decide, by decide⟩

/-- C8 (witness): the plain `DD/MM/YYYY` input `"15/06/2024"` is parsed by
the table parser, and then the charts parser agrees on it. -/
theorem C8_witness :
    parseDateCharts isoFallback "15/06/2024" = some (jsMkDate 2024 5 15) ∧
    parseDateCharts isoFallback "05/03/2025" = some (jsMkDate 2025 2 5) ∧
    civilFromDays (jsMkDate 2025 2 5) = (2025, 3, 5) ∧
    parseDatePpt "2025-03-05" = none :=
  C8_parse_order isoFallback "15/06/2024" (jsMkDate 2024 5 15) (by decide)

/-! ## C10: the top-products truncation -/

/-- C10: the top-products aggregation returns at most 10 groups; it is
exactly the first 10 of the product groups sorted by total payment value
descending, and its output is sorted descending by value — products beyond
the tenth by revenue are absent regardless of input size. -/
theorem C10_top_ten (data : List SalesData) :
    (productData data).length ≤ 10 ∧
    productData data =
      (List.insertionSort (fun a b => b.value ≤ a.value) (productGroups data)).take 10 ∧
    List.Sorted (fun a b : CategoryDataPoint => b.value ≤ a.value) (productData data) := by
  haveI : IsTotal CategoryDataPoint (fun a b => b.value ≤ a.value) :=
    ⟨fun a b => le_total b.value a.value⟩
  haveI : IsTrans CategoryDataPoint (fun a b => b.value ≤ a.value) :=
    ⟨fun _ _ _ hab hbc => hbc.trans hab⟩
  refine ⟨?_, rfl, ?_⟩
  · simp only [productData, List.length_take]
    exact min_le_left _ _
  · exact List.Pairwise.sublist (List.take_sublist 10 _)
      (List.sorted_insertionSort (fun a b : CategoryDataPoint => b.value ≤ a.value)
        (productGroups data))

/-! ## C2: the time-range selection -/

/-- Modelled from the spec: `windowStart` is obtained by calendar subtraction
of `n` months from the current moment — the same day-of-month, `n` calendar
months earlier (no such computation exists in the source; the source slices
month buckets instead). -/
def calendarSubMonths (t : Int) (n : Int) : Int :=
  let c := civilFromDays t
  jsMkDate c.1 (c.2.1 - 1 - n) c.2.2

/-- Modelled from the spec: the claimed record-level time-range filter —
exactly the records whose parsed payment date lies within
`[windowStart, now]` inclusive, records with an unparseable date excluded. -/
def specWindowFilter (fb : String → Option Int) (now n : Int)
    (data : List SalesData) : List SalesData :=
  data.filter (fun it =>
    match parseDateCharts fb it.paymentDate with
    | some t => decide (calendarSubMonths now n ≤ t) && decide (t ≤ now)
    | none => false)

/-- C2 (counterexample): with `now` = 11 Oct 2025 and a single record dated
`"01/01/2020"`, the window `[now − 3 months, now]` contains no record, yet the
code's `3months` output still shows the `"Jan 2020"` bucket: the source slices
the last 3 month buckets of whatever data exists, it does not filter by a date
window anchored at the current moment. -/
theorem C2_counterexample :
    monthlyData isoFallback [⟨"M1", "01/01/2020", 100, 0, "P", "C"⟩] "3months" ≠
      monthlyDataAll isoFallback
        (specWindowFilter isoFallback (jsMkDate 2025 9 11) 3
          [⟨"M1", "01/01/2020", 100, 0, "P", "C"⟩]) := by
  have h1 : (monthlyData isoFallback [⟨"M1", "01/01/2020", 100, 0, "P", "C"⟩]
      "3months").length = 1 := by decide
  have h2 : monthlyDataAll isoFallback
      (specWindowFilter isoFallback (jsMkDate 2025 9 11) 3
        [⟨"M1", "01/01/2020", 100, 0, "P", "C"⟩]) = [] := by decide
  intro he
  rw [he, h2] at h1
  simp at h1

/-- C2 (amended): for the named windows (`3months` ↦ 3, `6months` ↦ 6,
`year` ↦ 12), the time-range selection returns the suffix of the
chronologically sorted monthly aggregation consisting of its last
`min n (number of month buckets)` buckets — a bucket-count cutoff, not a
calendar window anchored at the current moment. -/
theorem C2_slice_is_suffix (fb : String → Option Int) (data : List SalesData)
    (tr : String) (n : Nat)
    (h : (tr, n) ∈ [("3months", 3), ("6months", 6), ("year", 12)]) :
    monthlyData fb data tr <:+ monthlyDataAll fb data ∧
    (monthlyData fb data tr).length = min n (monthlyDataAll fb data).length := by
  have hdrop : ∀ m : Nat, jsSliceLast m (monthlyDataAll fb data) <:+ monthlyDataAll fb data ∧
      (jsSliceLast m (monthlyDataAll fb data)).length =
        min m (monthlyDataAll fb data).length := by
    intro m
    constructor
    · exact List.drop_suffix _ _
    · rw [jsSliceLast, List.length_drop]
      omega
  simp only [List.mem_cons, List.mem_singleton, Prod.mk.injEq] at h
  rcases h with ⟨h1, h2⟩ | ⟨h1, h2⟩ | ⟨h1, h2⟩ | h
  · subst h1; subst h2
    exact hdrop 3
  · subst h1; subst h2
    have he : monthlyData fb data "6months" = jsSliceLast 6 (monthlyDataAll fb data) := rfl
    rw [he]; exact hdrop 6
  · subst h1; subst h2
    have he : monthlyData fb data "year" = jsSliceLast 12 (monthlyDataAll fb data) := rfl
    rw [he]; exact hdrop 12
  · cases h

/-- C2 (witness): the `3months` selection of the single-record collection is a
length-1 suffix of its monthly aggregation. -/
theorem C2_witness :
    monthlyData isoFallback [⟨"M1", "01/01/2020", 100, 0, "P", "C"⟩] "3months" <:+
      monthlyDataAll isoFallback [⟨"M1", "01/01/2020", 100, 0, "P", "C"⟩] ∧
    (monthlyData isoFallback [⟨"M1", "01/01/2020", 100, 0, "P", "C"⟩] "3months").length =
      min 3 (monthlyDataAll isoFallback [⟨"M1", "01/01/2020", 100, 0, "P", "C"⟩]).length :=
  C2_slice_is_suffix isoFallback [⟨"M1", "01/01/2020", 100, 0, "P", "C"⟩] "3months" 3
    (by simp)

/-! ## C5: group counts partition the input -/

theorem sumCounts_catInsert (l : List CategoryDataPoint) (key : String) (v : ℚ) :
    sumCounts (catInsert l key v) = sumCounts l + 1 := by
  induction l with
  | nil => simp [catInsert, sumCounts]
  | cons p rest ih =>
    by_cases h : p.name = key
    · simp only [catInsert, if_pos h, sumCounts, List.map_cons, List.sum_cons]
      omega
    · simp only [catInsert, if_neg h, sumCounts, List.map_cons, List.sum_cons] at ih ⊢
      omega

theorem sumCounts_groupFold (f : SalesData → String) (g : SalesData → ℚ)
    (data : List SalesData) :
    ∀ acc, sumCounts (data.foldl (fun acc item => catInsert acc (f item) (g item)) acc) =
      sumCounts acc + data.length := by
  induction data with
  | nil => intro acc; simp
  | cons it rest ih =>
    intro acc
    simp only [List.foldl_cons, List.length_cons, ih, sumCounts_catInsert]
    omega

theorem sumCounts_perm {l₁ l₂ : List CategoryDataPoint} (h : l₁.Perm l₂) :
    sumCounts l₁ = sumCounts l₂ := by
  simpa [sumCounts] using (h.map fun p => p.count).sum_eq

/-- The concrete collection behind the C5 counterexample: eleven records with
eleven distinct products, payment values 11 down to 1. -/
def elevenProducts : List SalesData :=
  [⟨"M", "", 11, 0, "P0", "C"⟩, ⟨"M", "", 10, 0, "P1", "C"⟩, ⟨"M", "", 9, 0, "P2", "C"⟩,
   ⟨"M", "", 8, 0, "P3", "C"⟩, ⟨"M", "", 7, 0, "P4", "C"⟩, ⟨"M", "", 6, 0, "P5", "C"⟩,
   ⟨"M", "", 5, 0, "P6", "C"⟩, ⟨"M", "", 4, 0, "P7", "C"⟩, ⟨"M", "", 3, 0, "P8", "C"⟩,
   ⟨"M", "", 2, 0, "P9", "C"⟩, ⟨"M", "", 1, 0, "P10", "C"⟩]

/-- C5 (counterexample): for the product grouping dimension the claim fails —
with eleven distinct products, the top-10 truncation of `productData` keeps
only ten groups, so the per-group transaction counts sum to 10, not to the
input's 11 transactions. -/
theorem C5_counterexample :
    sumCounts (productData elevenProducts) = 10 ∧
    elevenProducts.length = 11 ∧
    sumCounts (productData elevenProducts) ≠ elevenProducts.length := by
  refine ⟨?_, rfl, ?_⟩
  · norm_num [elevenProducts, productData, productGroups, catInsert, jsOrElse, sumCounts,
      List.insertionSort, List.orderedInsert]
  · intro h
    rw [show elevenProducts.length = 11 from rfl] at h
    rw [show sumCounts (productData elevenProducts) = 10 from by
      norm_num [elevenProducts, productData, productGroups, catInsert, jsOrElse, sumCounts,
        List.insertionSort, List.orderedInsert]] at h
    exact absurd h (by norm_num)

/-- C5 (amended): the per-group transaction counts sum to the input's
transaction count for the category grouping and for the product grouping
*before* its top-10 truncation; after the truncation the sum can only fall
short, never exceed. -/
theorem C5_counts_partition (data : List SalesData) :
    sumCounts (categoryData data) = data.length ∧
    sumCounts (List.insertionSort (fun a b => b.value ≤ a.value) (productGroups data)) =
      data.length ∧
    sumCounts (productData data) ≤ data.length := by
  have hcat : sumCounts (categoryGroups data) = data.length := by
    simpa [sumCounts] using
      sumCounts_groupFold (fun item => jsOrElse item.cleanedCategory "Uncategorized")
        (fun item => item.paymentValue) data []
  have hprod : sumCounts (productGroups data) = data.length := by
    simpa [sumCounts] using
      sumCounts_groupFold (fun item => jsOrElse item.cleanedProduct "Uncategorized")
        (fun item => item.paymentValue) data []
  have hsorted : sumCounts
      (List.insertionSort (fun a b => b.value ≤ a.value) (productGroups data)) =
      data.length := by
    rw [sumCounts_perm (List.perm_insertionSort _ _), hprod]
  refine ⟨?_, hsorted, ?_⟩
  · rw [categoryData, sumCounts_perm (List.perm_insertionSort _ _), hcat]
  · calc sumCounts (productData data)
        ≤ sumCounts (productData data) +
          sumCounts ((List.insertionSort (fun a b => b.value ≤ a.value)
            (productGroups data)).drop 10) := Nat.le_add_right _ _
      _ = sumCounts (List.insertionSort (fun a b => b.value ≤ a.value)
            (productGroups data)) := by
          simp only [productData, sumCounts, ← List.sum_append, ← List.map_append,
            List.take_append_drop]
      _ = data.length := hsorted

/-! ## C6: output order of the groupings -/

/-- C6 (counterexample): with category `"A"` (value 1) appearing before
category `"B"` (value 2), first-appearance order is `["A", "B"]` (the
insertion order of `categoryGroups`), but `categoryData` emits `["B", "A"]`:
category and product groups are sorted by total value descending, not by
first appearance. -/
theorem C6_counterexample :
    (categoryGroups [⟨"M", "", 1, 0, "P", "A"⟩, ⟨"M", "", 2, 0, "P", "B"⟩]).map
        (fun p => p.name) = ["A", "B"] ∧
    (categoryData [⟨"M", "", 1, 0, "P", "A"⟩, ⟨"M", "", 2, 0, "P", "B"⟩]).map
        (fun p => p.name) = ["B", "A"] ∧
    (categoryData [⟨"M", "", 1, 0, "P", "A"⟩, ⟨"M", "", 2, 0, "P", "B"⟩]).map
        (fun p => p.name) ≠
      (categoryGroups [⟨"M", "", 1, 0, "P", "A"⟩, ⟨"M", "", 2, 0, "P", "B"⟩]).map
        (fun p => p.name) := by
  have hg : (categoryGroups [⟨"M", "", 1, 0, "P", "A"⟩, ⟨"M", "", 2, 0, "P", "B"⟩]).map
      (fun p => p.name) = ["A", "B"] := by
    norm_num [categoryGroups, catInsert, jsOrElse]
    simp +decide
  have hd : (categoryData [⟨"M", "", 1, 0, "P", "A"⟩, ⟨"M", "", 2, 0, "P", "B"⟩]).map
      (fun p => p.name) = ["B", "A"] := by
    norm_num [categoryData, categoryGroups, catInsert, jsOrElse, List.insertionSort,
      List.orderedInsert]
    simp +decide
  refine ⟨hg, hd, ?_⟩
  rw [hg, hd]
  simp

/-- C6 (amended): the category and product outputs are sorted by total
payment value descending (the product output additionally truncated to ten),
the monthly chart aggregation is sorted chronologically ascending, and the
product table's `monthYears` header labels are sorted chronologically
descending (newest first). -/
theorem C6_output_order (fb : String → Option Int) (data : List SalesData) :
    List.Sorted (fun a b : CategoryDataPoint => b.value ≤ a.value) (categoryData data) ∧
    List.Sorted (fun a b : CategoryDataPoint => b.value ≤ a.value) (productData data) ∧
    List.Sorted (fun a b : MonthlyDataPoint => monthSortKey a.month ≤ monthSortKey b.month)
      (monthlyDataAll fb data) ∧
    List.Sorted (fun a b : String => monthYearKey b ≤ monthYearKey a) (monthYears data) := by
  haveI h1 : IsTotal CategoryDataPoint (fun a b => b.value ≤ a.value) :=
    ⟨fun a b => le_total b.value a.value⟩
  haveI h2 : IsTrans CategoryDataPoint (fun a b => b.value ≤ a.value) :=
    ⟨fun _ _ _ hab hbc => hbc.trans hab⟩
  haveI h3 : IsTotal MonthlyDataPoint (fun a b => monthSortKey a.month ≤ monthSortKey b.month) :=
    ⟨fun a b => le_total (monthSortKey a.month) (monthSortKey b.month)⟩
  haveI h4 : IsTrans MonthlyDataPoint (fun a b => monthSortKey a.month ≤ monthSortKey b.month) :=
    ⟨fun _ _ _ hab hbc => hab.trans hbc⟩
  haveI h5 : IsTotal String (fun a b => monthYearKey b ≤ monthYearKey a) :=
    ⟨fun a b => le_total (monthYearKey b) (monthYearKey a)⟩
  haveI h6 : IsTrans String (fun a b => monthYearKey b ≤ monthYearKey a) :=
    ⟨fun _ _ _ hab hbc => hbc.trans hab⟩
  refine ⟨?_, ?_, ?_, ?_⟩
  · exact List.sorted_insertionSort _ _
  · exact List.Pairwise.sublist (List.take_sublist 10 _) (List.sorted_insertionSort _ _)
  · exact List.sorted_insertionSort _ _
  · exact List.sorted_insertionSort _ _

/-! ## C9: unparseable dates and the groupings -/

theorem catCount_catInsert_self (l : List CategoryDataPoint) (key : String) (v : ℚ) :
    catCount (catInsert l key v) key = catCount l key + 1 := by
  induction l with
  | nil => simp [catInsert, catCount]
  | cons p rest ih =>
    by_cases h : p.name = key
    · simp [catInsert, catCount, List.filter_cons, h]
      omega
    · simp [catInsert, catCount, List.filter_cons, h] at ih ⊢
      omega

/-- C9: a record whose payment-date string is unparseable contributes to no
month bucket — appending it leaves the monthly grouping and the monthly chart
output unchanged — while the category grouping and the (untruncated) product
grouping still count it under its category and product keys, which never
consult the date. -/
theorem C9_unparseable_excluded (fb : String → Option Int) (data : List SalesData)
    (r : SalesData) (h : parseDateCharts fb r.paymentDate = none) :
    monthGroups fb (data ++ [r]) = monthGroups fb data ∧
    monthlyDataAll fb (data ++ [r]) = monthlyDataAll fb data ∧
    catCount (categoryGroups (data ++ [r])) (jsOrElse r.cleanedCategory "Uncategorized") =
      catCount (categoryGroups data) (jsOrElse r.cleanedCategory "Uncategorized") + 1 ∧
    catCount (productGroups (data ++ [r])) (jsOrElse r.cleanedProduct "Uncategorized") =
      catCount (productGroups data) (jsOrElse r.cleanedProduct "Uncategorized") + 1 := by
  have hm : monthGroups fb (data ++ [r]) = monthGroups fb data := by
    rw [monthGroups, List.foldl_append]
    simp only [List.foldl_cons, List.foldl_nil]
    rw [monthStep, h]
    rfl
  refine ⟨hm, ?_, ?_, ?_⟩
  · rw [monthlyDataAll, hm]
    rfl
  · rw [categoryGroups, List.foldl_append]
    simp only [List.foldl_cons, List.foldl_nil]
    exact catCount_catInsert_self _ _ _
  · rw [productGroups, List.foldl_append]
    simp only [List.foldl_cons, List.foldl_nil]
    exact catCount_catInsert_self _ _ _

/-- C9 (witness): appending the record dated `"not-a-date"` to a one-record
collection leaves the monthly aggregation unchanged and increments its
category and product counts. -/
theorem C9_witness :
    monthGroups isoFallback ([⟨"M", "01/03/2025", 1, 0, "P", "A"⟩] ++
        [⟨"M2", "not-a-date", 2, 0, "P", "A"⟩]) =
      monthGroups isoFallback [⟨"M", "01/03/2025", 1, 0, "P", "A"⟩] ∧
    monthlyDataAll isoFallback ([⟨"M", "01/03/2025", 1, 0, "P", "A"⟩] ++
        [⟨"M2", "not-a-date", 2, 0, "P", "A"⟩]) =
      monthlyDataAll isoFallback [⟨"M", "01/03/2025", 1, 0, "P", "A"⟩] ∧
    catCount (categoryGroups ([⟨"M", "01/03/2025", 1, 0, "P", "A"⟩] ++
        [⟨"M2", "not-a-date", 2, 0, "P", "A"⟩]))
        (jsOrElse (⟨"M2", "not-a-date", 2, 0, "P", "A"⟩ : SalesData).cleanedCategory
          "Uncategorized") =
      catCount (categoryGroups [⟨"M", "01/03/2025", 1, 0, "P", "A"⟩])
        (jsOrElse (⟨"M2", "not-a-date", 2, 0, "P", "A"⟩ : SalesData).cleanedCategory
          "Uncategorized") + 1 ∧
    catCount (productGroups ([⟨"M", "01/03/2025", 1, 0, "P", "A"⟩] ++
        [⟨"M2", "not-a-date", 2, 0, "P", "A"⟩]))
        (jsOrElse (⟨"M2", "not-a-date", 2, 0, "P", "A"⟩ : SalesData).cleanedProduct
          "Uncategorized") =
      catCount (productGroups [⟨"M", "01/03/2025", 1, 0, "P", "A"⟩])
        (jsOrElse (⟨"M2", "not-a-date", 2, 0, "P", "A"⟩ : SalesData).cleanedProduct
          "Uncategorized") + 1 :=
  C9_unparseable_excluded isoFallback [⟨"M", "01/03/2025", 1, 0, "P", "A"⟩]
    ⟨"M2", "not-a-date", 2, 0, "P", "A"⟩ (by decide)

/-! ## C7: grand totals, subtotals and ratio placeholders -/

theorem groupInsert_flatten_perm {α : Type} (acc : List (String × List α)) (key : String)
    (x : α) :
    ((groupInsert acc key x).map Prod.snd).flatten.Perm
      ((acc.map Prod.snd).flatten ++ [x]) := by
  induction acc with
  | nil => simp [groupInsert]
  | cons g rest ih =>
    obtain ⟨k, xs⟩ := g
    by_cases h : k = key
    · simp only [groupInsert, if_pos h, List.map_cons, List.flatten_cons, List.append_assoc]
      exact List.Perm.append_left xs List.perm_append_comm
    · simp only [groupInsert, if_neg h, List.map_cons, List.flatten_cons, List.append_assoc]
      exact List.Perm.append_left xs ih

theorem groupFold_flatten_perm {α : Type} (f : α → String) (data : List α) :
    ∀ acc : List (String × List α),
      ((data.foldl (fun acc x => groupInsert acc (f x) x) acc).map Prod.snd).flatten.Perm
        ((acc.map Prod.snd).flatten ++ data) := by
  induction data with
  | nil => intro acc; simp
  | cons x rest ih =>
    intro acc
    simp only [List.foldl_cons]
    have h1 := ih (groupInsert acc (f x) x)
    have h2 := List.Perm.append_right rest (groupInsert_flatten_perm acc (f x) x)
    have h3 : (acc.map Prod.snd).flatten ++ [x] ++ rest =
        (acc.map Prod.snd).flatten ++ (x :: rest) := by simp
    exact (h1.trans h2).trans (h3 ▸ List.Perm.refl _)

theorem pptProductGroups_flatten_perm (data : List SalesData) :
    ((pptProductGroups data).map Prod.snd).flatten.Perm data := by
  simpa using
    groupFold_flatten_perm (fun it => jsOrElse it.cleanedProduct "Unknown") data []

theorem sum_filter_groups (data : List SalesData) (p : SalesData → Bool) (v : SalesData → ℚ) :
    ((pptProductGroups data).map (fun g => ((g.2.filter p).map v).sum)).sum =
      ((data.filter p).map v).sum := by
  have hperm := pptProductGroups_flatten_perm data
  have h1 := (((hperm.filter p).map v)).sum_eq
  rw [← h1, List.filter_flatten, List.map_flatten, List.sum_flatten]
  simp only [List.map_map]
  exact congrArg List.sum (List.map_congr_left fun g _ => rfl)

theorem length_filter_groups (data : List SalesData) (p : SalesData → Bool) :
    ((pptProductGroups data).map (fun g => (g.2.filter p).length)).sum =
      (data.filter p).length := by
  have hperm := pptProductGroups_flatten_perm data
  have h1 := (hperm.filter p).length_eq
  rw [← h1, List.filter_flatten, List.length_flatten]
  simp only [List.map_map]
  exact congrArg List.sum (List.map_congr_left fun g _ => rfl)

theorem sum_natCastQ (l : List Nat) :
    (l.map (fun n : Nat => (n : ℚ))).sum = ((l.sum : Nat) : ℚ) := by
  induction l with
  | nil => simp
  | cons x xs ih => simp only [List.map_cons, List.sum_cons, ih, Nat.cast_add]

/-- C7: for any month label of the 18-month grid, the grand-totals footer
renders the dash placeholder for the ratio tabs (ATV/AUV/ASV), renders the
summed total for the summable tabs, and those totals equal the record-level
sums over the month (the product groups partition the input) — while a
category subtotal row *does* total a ratio tab by summing the per-product
monthly ATV values. -/
theorem C7_grand_totals (data : List SalesData) (rows : List ProdRow) (label : String)
    (y m : Int)
    (hfind : fixedMonths.find? (fun ym => monthLabel ym.1 ym.2 == label) = some (y, m)) :
    footerCell data label .atv = .text "-" ∧
    footerCell data label .auv = .text "-" ∧
    footerCell data label .asv = .text "-" ∧
    footerCell data label .grossRevenue = .currency (totalsVal data label .grossRevenue) ∧
    totalsVal data label .grossRevenue =
      jsSumQ ((data.filter (inMonth y m)).map (fun it => it.paymentValue)) ∧
    totalsVal data label .transactions = (((data.filter (inMonth y m)).length : Nat) : ℚ) ∧
    categorySubtotalCell rows label .atv =
      .currency (jsSumQ (rows.map (fun row => monthAtv row y m))) := by
  have hperm : (processedData data).Perm
      ((pptProductGroups data).map (fun g => mkProdRow g.1 g.2)) :=
    List.perm_insertionSort _ _
  refine ⟨rfl, rfl, rfl, rfl, ?_, ?_, ?_⟩
  · rw [show totalsVal data label .grossRevenue =
        jsSumQ ((processedData data).map (fun row => rowMonthVal row label .grossRevenue))
      from rfl]
    rw [jsSumQ_eq_sum, jsSumQ_eq_sum]
    have hval : ∀ row : ProdRow,
        rowMonthVal row label PerfTab.grossRevenue = monthGross row y m := by
      intro row; rw [rowMonthVal, hfind]
    simp only [hval]
    rw [(hperm.map (fun row => monthGross row y m)).sum_eq, List.map_map]
    rw [show ((fun row => monthGross row y m) ∘ fun g => mkProdRow g.1 g.2) =
        (fun g : String × List SalesData =>
          ((g.2.filter (inMonth y m)).map (fun it => it.paymentValue)).sum) from by
      funext g
      simp [monthGross, rowMonthItems, mkProdRow, jsSumQ_eq_sum]]
    exact sum_filter_groups data (inMonth y m) (fun it => it.paymentValue)
  · rw [show totalsVal data label .transactions =
        jsSumQ ((processedData data).map (fun row => rowMonthVal row label .transactions))
      from rfl]
    rw [jsSumQ_eq_sum]
    have hval : ∀ row : ProdRow,
        rowMonthVal row label PerfTab.transactions = ((monthTransactions row y m : Nat) : ℚ) := by
      intro row; rw [rowMonthVal, hfind]
    simp only [hval]
    rw [(hperm.map (fun row => ((monthTransactions row y m : Nat) : ℚ))).sum_eq, List.map_map]
    rw [show (((fun row => ((monthTransactions row y m : Nat) : ℚ)) ∘
        fun g => mkProdRow g.1 g.2)) =
        (fun g : String × List SalesData => (((g.2.filter (inMonth y m)).length : Nat) : ℚ))
      from by
      funext g
      simp [monthTransactions, rowMonthItems, mkProdRow]]
    rw [show (fun g : String × List SalesData => (((g.2.filter (inMonth y m)).length : Nat) : ℚ))
        = (fun n : Nat => (n : ℚ)) ∘ (fun g : String × List SalesData =>
            (g.2.filter (inMonth y m)).length) from rfl,
      ← List.map_map, sum_natCastQ, length_filter_groups data (inMonth y m)]
  · rw [show categorySubtotalCell rows label .atv =
        .currency (categoryTotal rows label .atv) from rfl]
    rw [categoryTotal, jsSumQ_eq_sum, jsSumQ_eq_sum]
    have hval : ∀ row : ProdRow, rowMonthVal row label PerfTab.atv = monthAtv row y m := by
      intro row; rw [rowMonthVal, hfind]
    simp only [hval]

/-- The concrete collection behind the C7 counterexample: two products of the
same category, one transaction each in March 2025, payment values 200 and
100. -/
def twoProductsOneCategory : List SalesData :=
  [⟨"a", "15/03/2025", 200, 0, "P2", "C"⟩, ⟨"b", "15/03/2025", 100, 0, "P1", "C"⟩]

/-- C7 (counterexample): on the `ATV` tab, the category subtotal row of the
single category `"C"` for the `"Mar 25"` column is the *summed* value
`300 = 200 + 100` — the sum of the two products' monthly ATVs — rendered as a
currency amount, not the placeholder that the claim requires whenever a total
is requested for a ratio metric. -/
theorem C7_counterexample :
    (groupedData twoProductsOneCategory).map
        (fun g => categorySubtotalCell g.2 "Mar 25" PerfTab.atv) = [Cell.currency 300] ∧
    Cell.currency (300 : ℚ) ≠ Cell.text "-" := by
  have hfind : fixedMonths.find? (fun ym => monthLabel ym.1 ym.2 == "Mar 25") =
      some (2025, 3) := by decide
  have hin1 : inMonth 2025 3 ⟨"a", "15/03/2025", 200, 0, "P2", "C"⟩ = true := by decide
  have hin2 : inMonth 2025 3 ⟨"b", "15/03/2025", 100, 0, "P1", "C"⟩ = true := by decide
  constructor
  · norm_num +decide [twoProductsOneCategory, groupedData, processedData, pptProductGroups,
      groupInsert, mkProdRow, jsOrElse, jsSumQ, jsSetOf, setAdd, List.insertionSort,
      List.orderedInsert, categorySubtotalCell, categoryTotal, rowMonthVal, hfind, monthAtv,
      monthTransactions, monthGross, rowMonthItems, hin1, hin2, jsRound]
  · simp

/-- C7 (witness): the grand-totals properties instantiated at the two-product
collection and the `"Mar 25"` column of the month grid. -/
theorem C7_witness :
    footerCell twoProductsOneCategory "Mar 25" PerfTab.atv = Cell.text "-" ∧
    footerCell twoProductsOneCategory "Mar 25" PerfTab.auv = Cell.text "-" ∧
    footerCell twoProductsOneCategory "Mar 25" PerfTab.asv = Cell.text "-" ∧
    footerCell twoProductsOneCategory "Mar 25" PerfTab.grossRevenue =
      Cell.currency (totalsVal twoProductsOneCategory "Mar 25" PerfTab.grossRevenue) ∧
    totalsVal twoProductsOneCategory "Mar 25" PerfTab.grossRevenue =
      jsSumQ ((twoProductsOneCategory.filter (inMonth 2025 3)).map
        (fun it => it.paymentValue)) ∧
    totalsVal twoProductsOneCategory "Mar 25" PerfTab.transactions =
      (((twoProductsOneCategory.filter (inMonth 2025 3)).length : Nat) : ℚ) ∧
    categorySubtotalCell [] "Mar 25" PerfTab.atv =
      Cell.currency (jsSumQ (([] : List ProdRow).map (fun row => monthAtv row 2025 3))) :=
  C7_grand_totals twoProductsOneCategory [] "Mar 25" 2025 3 (by decide)
